import Mathlib

/-!
Verification of `adk-redis` decision logic against its natural-language
specification.

The development shallowly embeds the Python modules
`adk_redis/cache/llm_cache.py`, `adk_redis/tools/search/hybrid.py`,
`adk_redis/tools/search/_base.py`, `adk_redis/tools/search/_config.py` and
`adk_redis/memory/long_term_memory.py`.  Pure helpers become Lean functions;
the asynchronous callbacks become pure functions from an explicit pending-map
state and an explicit provider/client behaviour to a result together with a
list of observable effects (provider `check`/`store` calls); Python
exceptions become `Except`; Python `Optional[str]` truthiness becomes an
explicit predicate on `Option String`.
-/

namespace AdkRedis

/-- Python truthiness of an `Optional[str]` value: truthy iff present and
non-empty. -/
def strTruthy (s : Option String) : Bool :=
  match s with
  | none => false
  | some t => t ≠ ""

/-! ## Data model for the ADK callback types used by `llm_cache.py` -/

/-- An ADK session event; only the `author` field is inspected by the cache. -/
structure Event where
  author : String
deriving DecidableEq, Repr

/-- An ADK session, as read by `llm_cache.py`. -/
structure Session where
  app_name : String
  user_id : String
  id : String
  events : List Event
deriving DecidableEq, Repr

/-- The callback context: a possibly absent session
(`callback_context.session`). -/
structure CallbackContext where
  session : Option Session
deriving DecidableEq, Repr

/-- A content part: an optional text and whether a truthy `function_call`
attribute is present. -/
structure Part where
  text : Option String
  function_call : Bool
deriving DecidableEq, Repr

/-- A content block with a role and parts. -/
structure Content where
  role : String
  parts : List Part
deriving DecidableEq, Repr

/-- An LLM request: its list of contents. -/
structure LlmRequest where
  contents : List Content
deriving DecidableEq, Repr

/-- An LLM response: optional content and optional error message. -/
structure LlmResponse where
  content : Option Content
  error_message : Option String
deriving DecidableEq, Repr

/-- A semantic-cache entry returned by `BaseCacheProvider.check`. -/
structure CacheEntry where
  response : String
deriving DecidableEq, Repr

/-- `LLMResponseCacheConfig` from `llm_cache.py`, with its Pydantic
defaults. -/
structure LLMResponseCacheConfig where
  first_message_only : Bool := true
  include_app_name : Bool := true
  include_user_id : Bool := true
  include_session_id : Bool := false
deriving DecidableEq, Repr

/-! ## The `_pending_prompts` dict, embedded as an association list with
Python-dict semantics (insertion order, overwrite on re-insert). -/

/-- `d[k] = v` on an ordered association list: overwrite in place if the key
is present, append otherwise. -/
def dictInsert (d : List (String × String)) (k v : String) :
    List (String × String) :=
  if d.any (fun p => p.1 == k) then
    d.map (fun p => if p.1 == k then (k, v) else p)
  else
    d ++ [(k, v)]

/-- `d.get(k)` on an ordered association list. -/
def dictGet (d : List (String × String)) (k : String) : Option String :=
  (d.find? (fun p => p.1 == k)).map (·.2)

/-- The removal effect of `d.pop(k, None)`: drop the binding for `k` when
present. -/
def dictRemove (d : List (String × String)) (k : String) :
    List (String × String) :=
  d.filter (fun p => p.1 ≠ k)

/-! ## Observable provider effects of the cache callbacks -/

/-- Calls made to the cache provider during a callback. -/
inductive CacheEffect where
  | check (key : String)
  | store (key : String) (response : String)
deriving DecidableEq, Repr

/-! ## `LLMResponseCache` helper methods -/

/-- `LLMResponseCache._is_first_message`: true when the session is absent or
has no events, or when no event is authored by `"user"`. -/
def _is_first_message (ctx : CallbackContext) : Bool :=
  match ctx.session with
  | none => true
  | some session =>
    if session.events.isEmpty then
      true
    else
      ((session.events.filter (fun e => e.author == "user")).length == 0)

/-- `LLMResponseCache._build_cache_key`: join the configured context parts and
the prompt with `" | "`. -/
def _build_cache_key (config : LLMResponseCacheConfig) (prompt : String)
    (ctx : CallbackContext) : String :=
  let parts : List String :=
    (if config.include_app_name ∧ ctx.session.isSome then
        ["app:" ++ (ctx.session.map Session.app_name).getD ""]
      else []) ++
    (if config.include_user_id ∧ ctx.session.isSome then
        ["user:" ++ (ctx.session.map Session.user_id).getD ""]
      else []) ++
    (if config.include_session_id ∧ ctx.session.isSome then
        ["session:" ++ (ctx.session.map Session.id).getD ""]
      else [])
  String.intercalate " | " (parts ++ [prompt])

/-- First truthy `part.text` of a list of parts, scanning left to right. -/
def firstTruthyText (ps : List Part) : Option String :=
  ps.findSome? (fun p =>
    match p.text with
    | some t => if t ≠ "" then some t else none
    | none => none)

/-- `LLMResponseCache._extract_prompt`: the first truthy text part of the last
user content (scanning contents in reverse, skipping user contents without a
truthy text part). -/
def _extract_prompt (req : LlmRequest) : Option String :=
  (req.contents.reverse).findSome? (fun c =>
    if c.role == "user" ∧ ¬ c.parts.isEmpty then firstTruthyText c.parts
    else none)

/-- `LLMResponseCache._extract_response_text`. -/
def _extract_response_text (resp : LlmResponse) : Option String :=
  match resp.content with
  | none => none
  | some c => if c.parts.isEmpty then none else firstTruthyText c.parts

/-- `LLMResponseCache._get_session_key`. -/
def _get_session_key (ctx : CallbackContext) : String :=
  match ctx.session with
  | some s => s.app_name ++ ":" ++ s.user_id ++ ":" ++ s.id
  | none => "default"

/-- Whether the response contains a truthy `function_call` part
(the loop in `after_model_callback`). -/
def hasFunctionCall (resp : LlmResponse) : Bool :=
  match resp.content with
  | none => false
  | some c => c.parts.any (fun p => p.function_call)

/-- Result of `before_model_callback`: the returned value, the updated
`_pending_prompts` state, and the provider calls made. -/
structure BeforeResult where
  response : Option LlmResponse
  pending : List (String × String)
  effects : List CacheEffect
deriving DecidableEq, Repr

/-- `LLMResponseCache.before_model_callback`, with the provider's `check`
passed in as a pure behaviour `provider : String → Option CacheEntry`. -/
def before_model_callback (config : LLMResponseCacheConfig)
    (provider : String → Option CacheEntry)
    (pending : List (String × String))
    (ctx : CallbackContext) (req : LlmRequest) : BeforeResult :=
  if config.first_message_only ∧ ¬ _is_first_message ctx then
    ⟨none, pending, []⟩
  else
    match _extract_prompt req with
    | none => ⟨none, pending, []⟩
    | some prompt =>
      if prompt = "" then ⟨none, pending, []⟩
      else
        let cache_key := _build_cache_key config prompt ctx
        match provider cache_key with
        | some entry =>
          ⟨some ⟨some ⟨"model", [⟨some entry.response, false⟩]⟩, none⟩,
            pending, [CacheEffect.check cache_key]⟩
        | none =>
          let session_key := _get_session_key ctx
          ⟨none, dictInsert pending session_key cache_key,
            [CacheEffect.check cache_key]⟩

/-- Result of `after_model_callback`: the returned value (always `none`), the
updated `_pending_prompts` state, and the provider calls made. -/
structure AfterResult where
  response : Option LlmResponse
  pending : List (String × String)
  effects : List CacheEffect
deriving DecidableEq, Repr

/-- `LLMResponseCache.after_model_callback`: pop the pending cache key for the
session — `if not cache_key:` skips the store for a missing *or empty* popped
value (Python truthiness) — then store the response text unless the response
is an error, a function call, or has no truthy text. -/
def after_model_callback (pending : List (String × String))
    (ctx : CallbackContext) (resp : LlmResponse) : AfterResult :=
  let session_key := _get_session_key ctx
  let cache_key? := dictGet pending session_key
  let pending' := dictRemove pending session_key
  match cache_key? with
  | none => ⟨none, pending', []⟩
  | some cache_key =>
    if cache_key = "" then ⟨none, pending', []⟩
    else if strTruthy resp.error_message then ⟨none, pending', []⟩
    else if hasFunctionCall resp then ⟨none, pending', []⟩
    else
      match _extract_response_text resp with
      | none => ⟨none, pending', []⟩
      | some text => ⟨none, pending', [CacheEffect.store cache_key text]⟩

/-! ## The hybrid-search version-compatibility shim (`hybrid.py`)

`packaging.version.parse` is an external library; it is embedded for the
release-only version strings this code compares (`"0.13.0"`, `"8.4.0"`,
server `redis_version` strings): a dotted sequence of non-empty digit runs
parses to its list of numerals, anything else is a parse failure
(`InvalidVersion`), and releases compare lexicographically with implicit
zero-padding on the right. -/

/-- Split a character list on `'.'` (the semantics of `str.split(".")`). -/
def splitDots : List Char → List (List Char)
  | [] => [[]]
  | c :: rest =>
    if c = '.' then [] :: splitDots rest
    else
      match splitDots rest with
      | [] => [[c]]
      | g :: gs => (c :: g) :: gs

/-- Decimal value of a digit run. -/
def digitsToNat (g : List Char) : Nat :=
  g.foldl (fun acc c => acc * 10 + (c.toNat - 48)) 0

/-- Embedding of `packaging.version.parse` on release-only version strings:
`some` of the numeric components when every dot-separated component is a
non-empty digit run, or `none` on a parse failure. -/
def parseVersion (s : String) : Option (List Nat) :=
  let groups := splitDots s.toList
  if groups.all (fun g => ¬ g.isEmpty ∧ g.all Char.isDigit) then
    some (groups.map digitsToNat)
  else
    none

/-- Strict lexicographic order on equal-importance version components. -/
def lexLt : List Nat → List Nat → Bool
  | _, [] => false
  | [], _ :: _ => true
  | a :: as, b :: bs => a < b ∨ (a = b ∧ lexLt as bs)

/-- Right-pad a release tuple with zeros to length `n`. -/
def padZeros (n : Nat) (l : List Nat) : List Nat :=
  l ++ List.replicate (n - l.length) 0

/-- `parse u < parse v` on releases: compare zero-padded tuples. -/
def versionLt (a b : List Nat) : Bool :=
  lexLt (padZeros (max a.length b.length) a) (padZeros (max a.length b.length) b)

/-- The state of the `redisvl` module as observed by
`_get_redisvl_version`: whether the import succeeds and the value of the
`__version__` attribute when it exists. -/
structure RedisvlModule where
  importable : Bool
  version_attr : Option String
deriving DecidableEq, Repr

/-- The behaviour of `client.info("server")`: an exception, or the optional
`redis_version` entry of the returned dict. -/
structure ClientModel where
  infoServer : Except String (Option String)
deriving Repr

/-- The index as observed by `_get_redis_server_version`: accessing the
client may raise (sync lazy connection), yield `None`, or yield a client. -/
structure IndexModel where
  clientAccess : Except String (Option ClientModel)
deriving Repr

/-- `_get_redisvl_version` from `hybrid.py`. -/
def _get_redisvl_version (m : RedisvlModule) : String :=
  if m.importable then
    match m.version_attr with
    | none => "0.0.0"
    | some v => v
  else
    "0.0.0"

/-- `_get_redis_server_version` from `hybrid.py`: any exception, a missing
client, or a missing `redis_version` entry yields `"0.0.0"`. -/
def _get_redis_server_version (index : IndexModel) : String :=
  match index.clientAccess with
  | .error _ => "0.0.0"
  | .ok none => "0.0.0"
  | .ok (some c) =>
    match c.infoServer with
    | .error _ => "0.0.0"
    | .ok info => info.getD "0.0.0"

/-- `_MIN_NATIVE_HYBRID_VERSION = "0.13.0"` as a parsed release. -/
def minNativeHybridRelease : List Nat := [0, 13, 0]

/-- `_MIN_REDIS_SERVER_VERSION = "8.4.0"` as a parsed release. -/
def minRedisServerRelease : List Nat := [8, 4, 0]

/-- `_supports_native_hybrid` from `hybrid.py`: RedisVL version parses and is
not below 0.13.0, and the Redis server version parses and is not below
8.4.0; a parse failure in either test returns `false`. -/
def _supports_native_hybrid (m : RedisvlModule) (index : IndexModel) : Bool :=
  match parseVersion (_get_redisvl_version m) with
  | none => false
  | some v =>
    if versionLt v minNativeHybridRelease then false
    else
      match parseVersion (_get_redis_server_version index) with
      | none => false
      | some w =>
        if versionLt w minRedisServerRelease then false else true

/-! ## `RedisHybridSearchTool` construction and query building -/

/-- The effective hybrid config of a tool: its class (`RedisHybridQueryConfig`
vs `RedisAggregatedHybridQueryConfig`), carrying the `num_results` field the
query builder reads. -/
inductive HybridCfg where
  | native (num_results : Nat)
  | aggregated (num_results : Nat)
deriving DecidableEq, Repr

/-- `isinstance(config, RedisHybridQueryConfig)`. -/
def HybridCfg.isNative : HybridCfg → Bool
  | .native _ => true
  | .aggregated _ => false

/-- `HybridCfg.num_results`. -/
def HybridCfg.numResults : HybridCfg → Nat
  | .native n => n
  | .aggregated n => n

/-- The tool state fixed by `RedisHybridSearchTool.__init__`: the detected
support flag, the chosen code path, the effective config, and whether the
`DeprecationWarning` was emitted. -/
structure HybridToolState where
  supports_native : Bool
  use_native : Bool
  config : HybridCfg
  warned : Bool
deriving DecidableEq, Repr

/-- `via RedisHybridQueryConfig()` / `RedisAggregatedHybridQueryConfig()`
defaults: `num_results = 10`. -/
def defaultNumResults : Nat := 10

/-- `RedisHybridSearchTool.__init__` (the version-compatibility logic):
detect support, auto-select a config when none is given, then raise
`ValueError` when a native config meets missing support, or warn when an
aggregated config meets available support. -/
def hybridToolInit (m : RedisvlModule) (index : IndexModel)
    (configArg : Option HybridCfg) : Except String HybridToolState :=
  let supports := _supports_native_hybrid m index
  let config :=
    match configArg with
    | some c => c
    | none =>
      if supports then HybridCfg.native defaultNumResults
      else HybridCfg.aggregated defaultNumResults
  let use_native := config.isNative
  if use_native ∧ ¬ supports then
    .error "RedisHybridQueryConfig requires RedisVL >= 0.13.0 and Redis >= 8.4.0."
  else
    .ok ⟨supports, use_native, config, !use_native && supports⟩

/-- The query object constructed by `RedisHybridSearchTool._build_query`:
exactly one of the two RedisVL query classes. -/
inductive BuiltHybridQuery where
  | hybridQuery (text : String) (vector : List Rat) (num_results : Nat)
  | aggregateHybridQuery (text : String) (vector : List Rat) (num_results : Nat)
deriving DecidableEq, Repr

/-- Whether a built query is a native `HybridQuery`. -/
def BuiltHybridQuery.isHybridQuery : BuiltHybridQuery → Bool
  | .hybridQuery _ _ _ => true
  | .aggregateHybridQuery _ _ _ => false

/-- `RedisHybridSearchTool._build_query`: apply the runtime `num_results`
override and construct the query class selected at construction time. -/
def hybridBuildQuery (st : HybridToolState) (query_text : String)
    (embedding : List Rat) (num_results_arg : Option Nat) : BuiltHybridQuery :=
  let num_results := num_results_arg.getD st.config.numResults
  if st.use_native then
    .hybridQuery query_text embedding num_results
  else
    .aggregateHybridQuery query_text embedding num_results

/-! ## `BaseRedisSearchTool._run_search` (`_base.py`)

The async pipeline is embedded as a pure function of the `query` argument
and of two behaviours: `buildFn` (the query-building closure, which includes
the vectorizer's embedding call) and `execFn` (`_execute_query`).  Python
exceptions raised by either become `Except.error (str e)`.  The side effects
performed are logged so that "without embedding or executing any query" is an
observable statement. -/

/-- The steps of `_run_search` that call out of the function. -/
inductive SearchEffect where
  | builtQuery
  | executedQuery
deriving DecidableEq, Repr

/-- The dictionary `_run_search` returns: either an error shape or a success
shape carrying the count and the results. -/
inductive RunSearchResult (R : Type) where
  | error (msg : String)
  | success (count : Nat) (results : List R)
deriving DecidableEq, Repr

/-- `_execute_query`'s final formatting: `[dict(r) for r in results] if
results else []`, with `dict` embedded as a per-row formatter. -/
def _execute_query_format {R S : Type} (toDict : R → S) (results : List R) :
    List S :=
  if results.isEmpty then [] else results.map toDict

/-- `BaseRedisSearchTool._run_search`: validate the query text, build the
query, execute it, and wrap any exception into the error shape. -/
def _run_search {Q R : Type} (queryArg : Option String)
    (buildFn : String → Except String Q)
    (execFn : Q → Except String (List R)) :
    RunSearchResult R × List SearchEffect :=
  let query_text := queryArg.getD ""
  if query_text = "" then
    (.error "Query text is required.", [])
  else
    match buildFn query_text with
    | .error e => (.error e, [SearchEffect.builtQuery])
    | .ok q =>
      match execFn q with
      | .error e =>
        (.error e, [SearchEffect.builtQuery, SearchEffect.executedQuery])
      | .ok results =>
        (.success results.length results,
          [SearchEffect.builtQuery, SearchEffect.executedQuery])

/-! ## `RedisVectorQueryConfig.to_query_kwargs` (`_config.py`)

Kwarg values are carried uninterpreted; `float` fields are embedded as `Rat`
(they are only stored and compared for presence, never computed with). -/

/-- The `sort_by` specification: `str | tuple[str, str] | list[...] | None`. -/
inductive SortSpec where
  | noneSpec
  | field (f : String)
  | fieldDir (f : String) (dir : String)
  | listSpec (items : List (String × Option String))
deriving DecidableEq, Repr

/-- A value stored in the kwargs dict. -/
inductive KwargVal where
  | vecV (v : List Rat)
  | strV (s : String)
  | optStrV (s : Option String)
  | natV (n : Nat)
  | optNatV (n : Option Nat)
  | ratV (q : Rat)
  | optRatV (q : Option Rat)
  | boolV (b : Bool)
  | sortV (s : SortSpec)
  | filterV (present : Bool)
deriving DecidableEq, Repr

/-- `RedisVectorQueryConfig` with its field defaults. -/
structure RedisVectorQueryConfig where
  vector_field_name : String := "embedding"
  num_results : Nat := 10
  dtype : String := "float32"
  return_score : Bool := true
  dialect : Nat := 2
  sort_by : SortSpec := .noneSpec
  in_order : Bool := false
  normalize_vector_distance : Bool := false
  hybrid_policy : Option String := none
  batch_size : Option Nat := none
  ef_runtime : Option Nat := none
  epsilon : Option Rat := none
  search_window_size : Option Nat := none
  use_search_history : Option String := none
  search_buffer_capacity : Option Nat := none
deriving DecidableEq, Repr

/-- A version-dependent entry: present in the kwargs dict iff the config
value is not `None`. -/
def optEntry {α : Type} (k : String) (f : α → KwargVal) (v : Option α) :
    List (String × KwargVal) :=
  match v with
  | none => []
  | some a => [(k, f a)]

/-- `RedisVectorQueryConfig.to_query_kwargs`: the ten core keys in insertion
order, then each version-dependent key exactly when its value is not
`None`. -/
def to_query_kwargs (cfg : RedisVectorQueryConfig) (vector : List Rat)
    (filter_expression : Bool) : List (String × KwargVal) :=
  [("vector", KwargVal.vecV vector),
   ("vector_field_name", KwargVal.strV cfg.vector_field_name),
   ("num_results", KwargVal.natV cfg.num_results),
   ("dtype", KwargVal.strV cfg.dtype),
   ("return_score", KwargVal.boolV cfg.return_score),
   ("dialect", KwargVal.natV cfg.dialect),
   ("sort_by", KwargVal.sortV cfg.sort_by),
   ("in_order", KwargVal.boolV cfg.in_order),
   ("normalize_vector_distance", KwargVal.boolV cfg.normalize_vector_distance),
   ("filter_expression", KwargVal.filterV filter_expression)] ++
  optEntry "hybrid_policy" KwargVal.strV cfg.hybrid_policy ++
  optEntry "batch_size" KwargVal.natV cfg.batch_size ++
  optEntry "ef_runtime" KwargVal.natV cfg.ef_runtime ++
  optEntry "epsilon" KwargVal.ratV cfg.epsilon ++
  optEntry "search_window_size" KwargVal.natV cfg.search_window_size ++
  optEntry "use_search_history" KwargVal.strV cfg.use_search_history ++
  optEntry "search_buffer_capacity" KwargVal.natV cfg.search_buffer_capacity

/-- The list of the ten core keys of `to_query_kwargs`. -/
def coreQueryKwargKeys : List String :=
  ["vector", "vector_field_name", "num_results", "dtype", "return_score",
   "dialect", "sort_by", "in_order", "normalize_vector_distance",
   "filter_expression"]

/-! ## `RedisLongTermMemoryService` (`long_term_memory.py`)

The HTTP memory client is embedded as the outcome of its one call per
method: `Except.error` for a raised exception. -/

/-- A part of an ADK event's content: text and the `thought` flag, as read by
`extract_text_from_event`. -/
structure MemEventPart where
  text : Option String
  thought : Bool
deriving DecidableEq, Repr

/-- An ADK event as read by the memory service. -/
structure MemEvent where
  author : String
  content : Option (List MemEventPart)
deriving DecidableEq, Repr

/-- An ADK session as read by the memory service. -/
structure MemSession where
  app_name : String
  user_id : String
  id : String
  events : List MemEvent
deriving DecidableEq, Repr

/-- `extract_text_from_event` from `memory/_utils.py`: the space-join of the
truthy, non-thought text parts, or `""`. -/
def extract_text_from_event (e : MemEvent) : String :=
  match e.content with
  | none => ""
  | some parts =>
    if parts.isEmpty then ""
    else
      " ".intercalate
        ((parts.filter (fun p => strTruthy p.text ∧ ¬ p.thought)).map
          (fun p => p.text.getD ""))

/-- A message of the working memory sent to the memory server. -/
structure MemoryMessage where
  role : String
  content : String
deriving DecidableEq, Repr

/-- `RedisLongTermMemoryService._build_working_memory`'s message list: events
with truthy extracted text, mapped to role `"user"` or `"assistant"`. -/
def _build_working_memory_messages (session : MemSession) :
    List MemoryMessage :=
  (session.events.filter (fun e => extract_text_from_event e ≠ "")).map
    (fun e =>
      ⟨if e.author == "user" then "user" else "assistant",
        extract_text_from_event e⟩)

/-- The observable outcome of `add_session_to_memory` (which always returns
`None`): nothing stored because no messages, a successful store, or a caught
and logged exception. -/
inductive AddSessionOutcome where
  | noMessages
  | stored (message_count : Nat)
  | loggedError
deriving DecidableEq, Repr

/-- `RedisLongTermMemoryService.add_session_to_memory`, with the client's
`put_working_memory` outcome passed in: every exception is caught and
logged. -/
def add_session_to_memory (session : MemSession)
    (putResult : Except String Unit) : AddSessionOutcome :=
  let messages := _build_working_memory_messages session
  if messages.isEmpty then
    .noMessages
  else
    match putResult with
    | .error _ => .loggedError
    | .ok _ => .stored messages.length

/-- A long-term memory record returned by the memory server. -/
structure MemoryRecord where
  text : String
deriving DecidableEq, Repr

/-- A `MemoryEntry` of the returned `SearchMemoryResponse`: content with one
text part. -/
structure MemoryEntryM where
  text : String
deriving DecidableEq, Repr

/-- `SearchMemoryResponse`. -/
structure SearchMemoryResponseM where
  memories : List MemoryEntryM
deriving DecidableEq, Repr

/-- `RedisLongTermMemoryService.search_memory`, with the client's
`search_long_term_memory` outcome passed in: on success each record becomes
a `MemoryEntry` with the record's text, on any exception the caught error
yields an empty response. -/
def search_memory (searchResult : Except String (List MemoryRecord)) :
    SearchMemoryResponseM :=
  match searchResult with
  | .error _ => ⟨[]⟩
  | .ok records => ⟨records.map (fun r => ⟨r.text⟩)⟩

/-! ## Helper lemmas -/

/-- `_is_first_message` is `false` exactly when the session is present and
has a user-authored event. -/
theorem is_first_message_eq_false_iff (ctx : CallbackContext) :
    _is_first_message ctx = false ↔
      ∃ s, ctx.session = some s ∧
        s.events.any (fun e => e.author == "user") = true := by
  cases hs : ctx.session with
  | none => simp [_is_first_message, hs]
  | some s =>
    simp only [_is_first_message, hs]
    constructor
    · intro h
      refine ⟨s, rfl, ?_⟩
      by_contra hany
      rw [Bool.not_eq_true] at hany
      rw [List.any_eq_false] at hany
      have hfil : s.events.filter (fun e => e.author == "user") = [] := by
        apply List.filter_eq_nil_iff.mpr
        intro a ha
        simpa using hany a ha
      simp [hfil] at h
    · rintro ⟨s', hs', hany⟩
      cases hs'
      rw [List.any_eq_true] at hany
      obtain ⟨e, he, hu⟩ := hany
      have hne : ¬ s.events.isEmpty := by
        cases hevs : s.events with
        | nil => simp [hevs] at he
        | cons a l => simp [hevs]
      have hmem : e ∈ s.events.filter (fun e => e.author == "user") := by
        rw [List.mem_filter]
        exact ⟨he, hu⟩
      have hlen : (s.events.filter (fun e => e.author == "user")).length ≠ 0 := by
        intro h0
        rw [List.length_eq_zero] at h0
        rw [h0] at hmem
        simp at hmem
      simp [hne, hlen]

/-- A prompt extracted by `_extract_prompt` is never the empty string. -/
theorem extract_prompt_ne_empty (req : LlmRequest) (p : String)
    (h : _extract_prompt req = some p) : p ≠ "" := by
  unfold _extract_prompt at h
  obtain ⟨c, _, hc⟩ := List.exists_of_findSome?_eq_some h
  split at hc
  · unfold firstTruthyText at hc
    obtain ⟨part, _, hp⟩ := List.exists_of_findSome?_eq_some hc
    revert hp
    split
    · split
      · intro hp
        cases hp
        assumption
      · intro hp
        cases hp
    · intro hp
      cases hp
  · cases hc

/-- Looking up a key just removed from the pending dict yields nothing. -/
theorem dictGet_dictRemove_self (d : List (String × String)) (k : String) :
    dictGet (dictRemove d k) k = none := by
  induction d with
  | nil => rfl
  | cons p rest ih =>
    by_cases hp : p.1 = k
    · simp only [dictRemove, List.filter_cons, hp] at *
      simpa using ih
    · simp only [dictRemove, List.filter_cons] at *
      simp only [dictGet, List.find?] at *
      simp_all [hp]

/-- Looking up a key on a non-matching head skips it. -/
theorem dictGet_cons_of_ne (p : String × String) (d : List (String × String))
    (k : String) (hp : p.1 ≠ k) : dictGet (p :: d) k = dictGet d k := by
  simp [dictGet, List.find?_cons, hp]

/-- Looking up a key on a matching head returns its value. -/
theorem dictGet_cons_of_eq (p : String × String) (d : List (String × String))
    (k : String) (hp : p.1 = k) : dictGet (p :: d) k = some p.2 := by
  simp [dictGet, List.find?_cons, hp]

/-- Overwriting an existing key makes the lookup return the new value. -/
theorem dictGet_map_overwrite (d : List (String × String)) (k v : String)
    (h : d.any (fun p => p.1 == k) = true) :
    dictGet (d.map (fun p => if p.1 == k then (k, v) else p)) k = some v := by
  induction d with
  | nil => simp at h
  | cons p rest ih =>
    by_cases hp : p.1 = k
    · have hstep :
          List.map (fun q => if q.1 == k then (k, v) else q) (p :: rest) =
            (k, v) :: List.map (fun q => if q.1 == k then (k, v) else q)
              rest := by
        simp [hp]
      rw [hstep, dictGet_cons_of_eq (k, v) _ k rfl]
    · have h' : rest.any (fun q => q.1 == k) = true := by
        simp only [List.any_cons, Bool.or_eq_true] at h
        rcases h with h | h
        · exact absurd (by simpa using h) hp
        · exact h
      have hstep :
          List.map (fun q => if q.1 == k then (k, v) else q) (p :: rest) =
            p :: List.map (fun q => if q.1 == k then (k, v) else q) rest := by
        simp [hp]
      rw [hstep, dictGet_cons_of_ne p _ k hp]
      exact ih h'

/-- Appending a fresh key makes the lookup return its value. -/
theorem dictGet_append_new (d : List (String × String)) (k v : String)
    (h : d.any (fun p => p.1 == k) = false) :
    dictGet (d ++ [(k, v)]) k = some v := by
  induction d with
  | nil => simp [dictGet]
  | cons p rest ih =>
    simp only [List.any_cons, Bool.or_eq_false_iff] at h
    obtain ⟨h1, h2⟩ := h
    rw [List.cons_append, dictGet_cons_of_ne p _ k (by simpa using h1)]
    exact ih h2

/-- Looking up a key just inserted into the pending dict returns its
value. -/
theorem dictGet_dictInsert_self (d : List (String × String)) (k v : String) :
    dictGet (dictInsert d k v) k = some v := by
  unfold dictInsert
  by_cases h : d.any (fun p => p.1 == k) = true
  · simp only [h, if_true]
    exact dictGet_map_overwrite d k v h
  · rw [Bool.not_eq_true] at h
    simp only [h, Bool.false_eq_true, if_false]
    exact dictGet_append_new d k v h

/-- A string append with a non-empty right part is non-empty. -/
theorem append_ne_empty_right (s t : String) (h : t ≠ "") : s ++ t ≠ "" := by
  intro hc
  apply h
  have hd := congrArg String.data hc
  rw [String.data_append] at hd
  rcases List.append_eq_nil.mp hd with ⟨-, h2⟩
  cases t
  simp only at h2
  simp [h2]

/-- A cache key built from a non-empty prompt is non-empty (the prompt is
always its last `" | "`-joined part). -/
theorem build_cache_key_ne_empty (cfg : LLMResponseCacheConfig)
    (prompt : String) (ctx : CallbackContext) (h : prompt ≠ "") :
    _build_cache_key cfg prompt ctx ≠ "" := by
  unfold _build_cache_key
  split_ifs <;>
    simp only [List.nil_append, List.append_nil, List.cons_append,
      String.intercalate, String.intercalate.go] <;>
    first
      | exact h
      | exact append_ne_empty_right _ prompt h

/-- `after_model_callback` always returns `None`, passing the original
response through. -/
theorem after_response_eq_none (p : List (String × String))
    (ctx : CallbackContext) (resp : LlmResponse) :
    (after_model_callback p ctx resp).response = none := by
  unfold after_model_callback
  cases h : dictGet p (_get_session_key ctx)
  · simp [h]
  · simp only [h]
    split_ifs <;> try rfl
    cases _extract_response_text resp <;> rfl

/-- `after_model_callback` always removes the session's pending entry. -/
theorem after_pending_eq (p : List (String × String))
    (ctx : CallbackContext) (resp : LlmResponse) :
    (after_model_callback p ctx resp).pending =
      dictRemove p (_get_session_key ctx) := by
  unfold after_model_callback
  cases h : dictGet p (_get_session_key ctx)
  · simp [h]
  · simp only [h]
    split_ifs <;> try rfl
    cases _extract_response_text resp <;> rfl

/-- `after_model_callback` stores exactly when a truthy (non-empty) entry
existed, the response has no truthy error message, no function-call part,
and has extractable text. -/
theorem after_store_iff (p : List (String × String)) (ctx : CallbackContext)
    (resp : LlmResponse) (ck t : String) :
    CacheEffect.store ck t ∈ (after_model_callback p ctx resp).effects ↔
      (dictGet p (_get_session_key ctx) = some ck ∧ ck ≠ "" ∧
       strTruthy resp.error_message = false ∧
       hasFunctionCall resp = false ∧
       _extract_response_text resp = some t) := by
  unfold after_model_callback
  cases h : dictGet p (_get_session_key ctx)
  · simp [h]
  case some ck0 =>
    simp only [h]
    split_ifs with h0 h1 h2
    · simp only [List.not_mem_nil, false_iff]
      rintro ⟨hck, hne, -⟩
      rw [Option.some.injEq] at hck
      exact hne (hck ▸ h0)
    · simp [h1]
    · simp [h2]
    · rw [Bool.not_eq_true] at h1 h2
      cases he : _extract_response_text resp
      · simp [h1, h2]
      · simp only [h1, h2, List.mem_singleton, CacheEffect.store.injEq,
          Option.some.injEq]
        constructor
        · rintro ⟨rfl, rfl⟩
          exact ⟨rfl, h0, trivial, trivial, rfl⟩
        · rintro ⟨rfl, _, _, _, rfl⟩
          exact ⟨rfl, rfl⟩

/-- With no pending entry for the session, `after_model_callback` performs no
provider call. -/
theorem after_effects_eq_nil (p : List (String × String))
    (ctx : CallbackContext) (resp : LlmResponse)
    (h : dictGet p (_get_session_key ctx) = none) :
    (after_model_callback p ctx resp).effects = [] := by
  unfold after_model_callback
  simp [h]

/-! ## Claim theorems -/

/-- C5: cache-key construction.  For every prompt and callback context,
`_build_cache_key` returns the `" | "`-join of, in order, `"app:{app_name}"`
when `include_app_name` is set and a session exists, `"user:{user_id}"` when
`include_user_id` is set and a session exists, `"session:{id}"` when
`include_session_id` is set and a session exists, followed always by the
prompt itself as the last part; without a session the key is the prompt alone,
and with the default config the key is `"app:A | user:U | <prompt>"`. -/
theorem C5_cache_key_construction (cfg : LLMResponseCacheConfig)
    (prompt appN userId sid : String) (evs : List Event) :
    _build_cache_key cfg prompt ⟨some ⟨appN, userId, sid, evs⟩⟩ =
      String.intercalate " | "
        ((if cfg.include_app_name then ["app:" ++ appN] else []) ++
         (if cfg.include_user_id then ["user:" ++ userId] else []) ++
         (if cfg.include_session_id then ["session:" ++ sid] else []) ++
         [prompt]) ∧
    _build_cache_key cfg prompt ⟨none⟩ = prompt ∧
    _build_cache_key {} prompt ⟨some ⟨appN, userId, sid, evs⟩⟩ =
      "app:" ++ appN ++ " | user:" ++ userId ++ " | " ++ prompt := by
  refine ⟨?_, ?_, ?_⟩
  · simp [_build_cache_key]
  · simp [_build_cache_key, String.intercalate, String.intercalate.go]
  · have h : ∀ x : String, " | " ++ ("user:" ++ x) = " | user:" ++ x := by
      intro x
      rw [← String.append_assoc]
      rfl
    simp [_build_cache_key, String.intercalate, String.intercalate.go,
      String.append_assoc, h]

/-- C1 (amended): first-message-only gating.  With `first_message_only`
enabled, if the session exists and has a user-authored event the callback
returns `None` making no provider call; if the session is absent, has no
events, or has no user-authored events, the message counts as the first
message and — provided a user prompt can be extracted from the request — the
provider's `check` is called with the built cache key. -/
theorem C1_first_message_gating (cfg : LLMResponseCacheConfig)
    (provider : String → Option CacheEntry) (pending : List (String × String))
    (ctx : CallbackContext) (req : LlmRequest)
    (hcfg : cfg.first_message_only = true) :
    ((∃ s, ctx.session = some s ∧
        s.events.any (fun e => e.author == "user") = true) →
      (before_model_callback cfg provider pending ctx req).response = none ∧
      (before_model_callback cfg provider pending ctx req).effects = []) ∧
    ((ctx.session = none ∨
      (∃ s, ctx.session = some s ∧
        (s.events = [] ∨ ∀ e ∈ s.events, e.author ≠ "user"))) →
      _is_first_message ctx = true ∧
      ∀ prompt, _extract_prompt req = some prompt →
        CacheEffect.check (_build_cache_key cfg prompt ctx) ∈
          (before_model_callback cfg provider pending ctx req).effects) := by
  constructor
  · intro hex
    have hfirst : _is_first_message ctx = false :=
      (is_first_message_eq_false_iff ctx).mpr hex
    unfold before_model_callback
    simp [hcfg, hfirst]
  · intro hctx
    have hfirst : _is_first_message ctx = true := by
      by_cases h : _is_first_message ctx = true
      · exact h
      · exfalso
        rw [Bool.not_eq_true] at h
        obtain ⟨s, hs, hany⟩ := (is_first_message_eq_false_iff ctx).mp h
        rw [List.any_eq_true] at hany
        obtain ⟨e, he, hu⟩ := hany
        rcases hctx with hnone | ⟨s', hs', hne | hall⟩
        · rw [hnone] at hs
          cases hs
        · rw [hs'] at hs
          cases hs
          rw [hne] at he
          simp at he
        · rw [hs'] at hs
          cases hs
          exact hall e he (by simpa using hu)
    refine ⟨hfirst, ?_⟩
    intro prompt hprompt
    have hne : prompt ≠ "" := extract_prompt_ne_empty req prompt hprompt
    unfold before_model_callback
    simp only [hcfg, hfirst, hprompt]
    simp only [not_true, and_false, if_false, hne, if_neg]
    cases hp : provider (_build_cache_key cfg prompt ctx) <;> simp [hp]

/-- C1 counterexample: with the default config, an absent session and a
request from which no prompt can be extracted, the callback makes no provider
call at all — the cache is not consulted even though the session is absent. -/
theorem C1_counterexample :
    (⟨none⟩ : CallbackContext).session = none ∧
    ({} : LLMResponseCacheConfig).first_message_only = true ∧
    (before_model_callback {} (fun _ => some ⟨"cached"⟩) [] ⟨none⟩
      ⟨[]⟩).effects = [] := by
  refine ⟨rfl, rfl, rfl⟩

/-- C1 witness: both branches of the gating theorem at concrete inputs. -/
theorem C1_witness :
    ((before_model_callback {} (fun _ => none) []
        ⟨some ⟨"A", "U", "S", [⟨"user"⟩]⟩⟩ ⟨[]⟩).response = none ∧
      (before_model_callback {} (fun _ => none) []
        ⟨some ⟨"A", "U", "S", [⟨"user"⟩]⟩⟩ ⟨[]⟩).effects = []) ∧
    CacheEffect.check (_build_cache_key {} "hi" ⟨none⟩) ∈
      (before_model_callback {} (fun _ => none) [] ⟨none⟩
        ⟨[⟨"user", [⟨some "hi", false⟩]⟩]⟩).effects :=
  ⟨(C1_first_message_gating {} (fun _ => none) []
      ⟨some ⟨"A", "U", "S", [⟨"user"⟩]⟩⟩ ⟨[]⟩ rfl).1
      ⟨⟨"A", "U", "S", [⟨"user"⟩]⟩, rfl, by decide⟩,
    ((C1_first_message_gating {} (fun _ => none) [] ⟨none⟩
      ⟨[⟨"user", [⟨some "hi", false⟩]⟩]⟩ rfl).2 (Or.inl rfl)).2 "hi" rfl⟩

/-- C6: pending-prompt tracking across the callback pair.  On a cache miss,
`before_model_callback` records the cache key under the session key
`"app:user:id"` (or `"default"` without a session); the paired
`after_model_callback` removes that entry and calls the provider's `store`
with it exactly when the response has no error message, no function-call
part, and yields non-empty text; in general a call with no pending entry
stores nothing, and in every case `after_model_callback` returns `None`. -/
theorem C6_pending_prompt_tracking (cfg : LLMResponseCacheConfig)
    (provider : String → Option CacheEntry) (pending : List (String × String))
    (ctx : CallbackContext) (req : LlmRequest) (prompt : String)
    (hgate : cfg.first_message_only = false ∨ _is_first_message ctx = true)
    (hprompt : _extract_prompt req = some prompt)
    (hmiss : provider (_build_cache_key cfg prompt ctx) = none) :
    (before_model_callback cfg provider pending ctx req).pending =
      dictInsert pending (_get_session_key ctx)
        (_build_cache_key cfg prompt ctx) ∧
    (∀ appN userId sid evs, ctx.session = some ⟨appN, userId, sid, evs⟩ →
      _get_session_key ctx = appN ++ ":" ++ userId ++ ":" ++ sid) ∧
    (ctx.session = none → _get_session_key ctx = "default") ∧
    (∀ resp,
      (after_model_callback
        (before_model_callback cfg provider pending ctx req).pending ctx
        resp).response = none ∧
      dictGet (after_model_callback
        (before_model_callback cfg provider pending ctx req).pending ctx
        resp).pending (_get_session_key ctx) = none ∧
      (∀ ck t,
        CacheEffect.store ck t ∈ (after_model_callback
          (before_model_callback cfg provider pending ctx req).pending ctx
          resp).effects ↔
          (ck = _build_cache_key cfg prompt ctx ∧
           strTruthy resp.error_message = false ∧
           hasFunctionCall resp = false ∧
           _extract_response_text resp = some t))) ∧
    (∀ p2 ctx2 resp2,
      (after_model_callback p2 ctx2 resp2).response = none ∧
      (dictGet p2 (_get_session_key ctx2) = none →
        (after_model_callback p2 ctx2 resp2).effects = [])) := by
  have hne := extract_prompt_ne_empty req prompt hprompt
  have hckne := build_cache_key_ne_empty cfg prompt ctx hne
  have hbp : (before_model_callback cfg provider pending ctx req).pending =
      dictInsert pending (_get_session_key ctx)
        (_build_cache_key cfg prompt ctx) := by
    unfold before_model_callback
    rcases hgate with h | h <;> simp [h, hprompt, hne, hmiss]
  refine ⟨hbp, ?_, ?_, ?_, ?_⟩
  · intro appN userId sid evs hs
    simp [_get_session_key, hs]
  · intro hs
    simp [_get_session_key, hs]
  · intro resp
    rw [hbp]
    refine ⟨after_response_eq_none _ ctx resp, ?_, ?_⟩
    · rw [after_pending_eq]
      exact dictGet_dictRemove_self _ (_get_session_key ctx)
    · intro ck t
      rw [after_store_iff, dictGet_dictInsert_self, Option.some.injEq]
      constructor
      · rintro ⟨rfl, -, h1, h2, h3⟩
        exact ⟨rfl, h1, h2, h3⟩
      · rintro ⟨rfl, h1, h2, h3⟩
        exact ⟨rfl, hckne, h1, h2, h3⟩
  · intro p2 ctx2 resp2
    exact ⟨after_response_eq_none p2 ctx2 resp2,
      fun hn => after_effects_eq_nil p2 ctx2 resp2 hn⟩

/-- C6 witness: a concrete cache miss records the key, and the paired
`after_model_callback` stores exactly it on a clean model response. -/
theorem C6_witness :
    (before_model_callback {} (fun _ => none) []
        ⟨some ⟨"A", "U", "S", []⟩⟩
        ⟨[⟨"user", [⟨some "hi", false⟩]⟩]⟩).pending =
      dictInsert [] (_get_session_key ⟨some ⟨"A", "U", "S", []⟩⟩)
        (_build_cache_key {} "hi" ⟨some ⟨"A", "U", "S", []⟩⟩) ∧
    CacheEffect.store (_build_cache_key {} "hi" ⟨some ⟨"A", "U", "S", []⟩⟩)
        "answer" ∈
      (after_model_callback
        (before_model_callback {} (fun _ => none) []
          ⟨some ⟨"A", "U", "S", []⟩⟩
          ⟨[⟨"user", [⟨some "hi", false⟩]⟩]⟩).pending
        ⟨some ⟨"A", "U", "S", []⟩⟩
        ⟨some ⟨"model", [⟨some "answer", false⟩]⟩, none⟩).effects :=
  ⟨(C6_pending_prompt_tracking {} (fun _ => none) [] ⟨some ⟨"A", "U", "S", []⟩⟩
      ⟨[⟨"user", [⟨some "hi", false⟩]⟩]⟩ "hi" (Or.inr rfl) rfl rfl).1,
    (((C6_pending_prompt_tracking {} (fun _ => none) []
        ⟨some ⟨"A", "U", "S", []⟩⟩ ⟨[⟨"user", [⟨some "hi", false⟩]⟩]⟩ "hi"
        (Or.inr rfl) rfl rfl).2.2.2.1
        ⟨some ⟨"model", [⟨some "answer", false⟩]⟩, none⟩).2.2
        (_build_cache_key {} "hi" ⟨some ⟨"A", "U", "S", []⟩⟩) "answer").mpr
      ⟨rfl, rfl, rfl, rfl⟩⟩

/-- C9: a cache hit returns a model response with a single text part equal to
the cached response and leaves `_pending_prompts` unchanged, so a following
`after_model_callback` for that session (with no intervening miss) finds no
pending key and performs no store. -/
theorem C9_cache_hit_frame (cfg : LLMResponseCacheConfig)
    (provider : String → Option CacheEntry) (pending : List (String × String))
    (ctx : CallbackContext) (req : LlmRequest) (prompt : String)
    (entry : CacheEntry)
    (hgate : cfg.first_message_only = false ∨ _is_first_message ctx = true)
    (hprompt : _extract_prompt req = some prompt)
    (hhit : provider (_build_cache_key cfg prompt ctx) = some entry)
    (hnone : dictGet pending (_get_session_key ctx) = none) :
    (before_model_callback cfg provider pending ctx req).response =
      some ⟨some ⟨"model", [⟨some entry.response, false⟩]⟩, none⟩ ∧
    (before_model_callback cfg provider pending ctx req).pending = pending ∧
    ∀ resp,
      (after_model_callback
        (before_model_callback cfg provider pending ctx req).pending ctx
        resp).effects = [] := by
  have hne := extract_prompt_ne_empty req prompt hprompt
  have hb : before_model_callback cfg provider pending ctx req =
      ⟨some ⟨some ⟨"model", [⟨some entry.response, false⟩]⟩, none⟩, pending,
        [CacheEffect.check (_build_cache_key cfg prompt ctx)]⟩ := by
    unfold before_model_callback
    rcases hgate with h | h <;> simp [h, hprompt, hne, hhit]
  refine ⟨by rw [hb], by rw [hb], ?_⟩
  intro resp
  rw [hb]
  exact after_effects_eq_nil pending ctx resp hnone

/-- C9 witness: a concrete cache hit returns the cached text unchanged and a
following `after_model_callback` makes no provider call. -/
theorem C9_witness :
    (before_model_callback {} (fun _ => some ⟨"cached answer"⟩) [] ⟨none⟩
        ⟨[⟨"user", [⟨some "hi", false⟩]⟩]⟩).response =
      some ⟨some ⟨"model", [⟨some "cached answer", false⟩]⟩, none⟩ ∧
    (after_model_callback
      (before_model_callback {} (fun _ => some ⟨"cached answer"⟩) [] ⟨none⟩
        ⟨[⟨"user", [⟨some "hi", false⟩]⟩]⟩).pending ⟨none⟩
      ⟨some ⟨"model", [⟨some "resp", false⟩]⟩, none⟩).effects = [] :=
  ⟨(C9_cache_hit_frame {} (fun _ => some ⟨"cached answer"⟩) [] ⟨none⟩
      ⟨[⟨"user", [⟨some "hi", false⟩]⟩]⟩ "hi" ⟨"cached answer"⟩
      (Or.inr rfl) rfl rfl rfl).1,
    (C9_cache_hit_frame {} (fun _ => some ⟨"cached answer"⟩) [] ⟨none⟩
      ⟨[⟨"user", [⟨some "hi", false⟩]⟩]⟩ "hi" ⟨"cached answer"⟩
      (Or.inr rfl) rfl rfl rfl).2.2
      ⟨some ⟨"model", [⟨some "resp", false⟩]⟩, none⟩⟩

/-- C7: log-and-return-empty failure recovery.  If the memory-server client
raises, `search_memory` returns a response with an empty memories list and
`add_session_to_memory` returns normally with the error only logged; on
success `search_memory` maps each record to a memory entry and
`add_session_to_memory` stores the built messages. -/
theorem C7_log_and_return_empty :
    (∀ e, search_memory (.error e) = ⟨[]⟩) ∧
    (∀ records, search_memory (.ok records) =
      ⟨records.map (fun r => ⟨r.text⟩)⟩) ∧
    (∀ session e, add_session_to_memory session (.error e) =
      (if (_build_working_memory_messages session).isEmpty then
        AddSessionOutcome.noMessages
      else
        AddSessionOutcome.loggedError)) ∧
    (∀ session, (_build_working_memory_messages session).isEmpty = false →
      add_session_to_memory session (.ok ()) =
        AddSessionOutcome.stored
          (_build_working_memory_messages session).length) := by
  refine ⟨fun e => rfl, fun records => rfl, fun session e => ?_, fun session h => ?_⟩
  · unfold add_session_to_memory
    split_ifs with h <;> simp [h]
  · unfold add_session_to_memory
    simp [h]

/-- C7 witness: the error path returns the empty response, and a session with
one text event stores one message on success. -/
theorem C7_witness :
    search_memory (.error "connection refused") = ⟨[]⟩ ∧
    add_session_to_memory
      ⟨"A", "U", "S", [⟨"user", some [⟨some "hello", false⟩]⟩]⟩
      (.error "connection refused") = AddSessionOutcome.loggedError ∧
    add_session_to_memory
      ⟨"A", "U", "S", [⟨"user", some [⟨some "hello", false⟩]⟩]⟩ (.ok ()) =
      AddSessionOutcome.stored 1 :=
  ⟨C7_log_and_return_empty.1 "connection refused",
    C7_log_and_return_empty.2.2.1
      ⟨"A", "U", "S", [⟨"user", some [⟨some "hello", false⟩]⟩]⟩
      "connection refused",
    C7_log_and_return_empty.2.2.2
      ⟨"A", "U", "S", [⟨"user", some [⟨some "hello", false⟩]⟩]⟩ rfl⟩

/-- C8: search tools never raise and use an error-status shape.  A missing or
empty `query` argument yields the required-query error without building or
executing anything; an exception while building or executing yields the
error shape with the exception's message; success yields the success shape
whose count is the length of its results. -/
theorem C8_run_search_shape {Q R : Type} (queryArg : Option String)
    (buildFn : String → Except String Q)
    (execFn : Q → Except String (List R)) :
    ((queryArg = none ∨ queryArg = some "") →
      _run_search queryArg buildFn execFn =
        (.error "Query text is required.", [])) ∧
    (∀ q, queryArg = some q → q ≠ "" →
      ((∀ e, buildFn q = .error e →
        _run_search queryArg buildFn execFn =
          (.error e, [SearchEffect.builtQuery])) ∧
       (∀ qq e, buildFn q = .ok qq → execFn qq = .error e →
        _run_search queryArg buildFn execFn =
          (.error e, [SearchEffect.builtQuery, SearchEffect.executedQuery])) ∧
       (∀ qq rs, buildFn q = .ok qq → execFn qq = .ok rs →
        _run_search queryArg buildFn execFn =
          (.success rs.length rs,
            [SearchEffect.builtQuery, SearchEffect.executedQuery])))) := by
  constructor
  · rintro (rfl | rfl) <;> rfl
  · rintro q rfl hq
    refine ⟨fun e he => ?_, fun qq e hqq he => ?_, fun qq rs hqq hrs => ?_⟩
    · unfold _run_search
      simp [hq, he]
    · unfold _run_search
      simp [hq, hqq, he]
    · unfold _run_search
      simp [hq, hqq, hrs]

/-- C8 witness: the empty-query, build-error and success paths at concrete
inputs. -/
theorem C8_witness :
    _run_search (Q := Nat) (R := Nat) (some "") (fun _ => .ok 0)
      (fun _ => .ok [7]) = (.error "Query text is required.", []) ∧
    _run_search (Q := Nat) (R := Nat) (some "hi") (fun _ => .error "boom")
      (fun _ => .ok [7]) = (.error "boom", [SearchEffect.builtQuery]) ∧
    _run_search (Q := Nat) (R := Nat) (some "hi") (fun _ => .ok 0)
      (fun _ => .ok [7]) =
      (.success 1 [7],
        [SearchEffect.builtQuery, SearchEffect.executedQuery]) :=
  ⟨(C8_run_search_shape (some "") (fun _ => .ok 0) (fun _ => .ok [7])).1
      (Or.inr rfl),
    ((C8_run_search_shape (some "hi") (fun _ => .error "boom")
        (fun _ => .ok [7])).2 "hi" rfl (by decide)).1 "boom" rfl,
    ((C8_run_search_shape (some "hi") (fun _ => .ok 0)
        (fun _ => .ok [7])).2 "hi" rfl (by decide)).2.2 0 [7] rfl rfl⟩

/-- Key membership of a version-dependent kwargs entry. -/
theorem mem_optEntry_keys {α : Type} (k k' : String) (f : α → KwargVal)
    (v : Option α) :
    (k' ∈ (optEntry k f v).map Prod.fst) ↔ (k' = k ∧ v ≠ none) := by
  cases v <;> simp [optEntry]

/-- Entry membership of a version-dependent kwargs entry, existential form. -/
theorem exists_pair_mem_optEntry {α : Type} (k k' : String)
    (f : α → KwargVal) (v : Option α) :
    (∃ x, (k', x) ∈ optEntry k f v) ↔ (k' = k ∧ v ≠ none) := by
  cases v <;> simp [optEntry]

/-- C10: version-dependent parameter exclusion.  `to_query_kwargs` always
contains the ten core keys, and contains each version-dependent key if and
only if that config field is not `None`. -/
theorem C10_version_dependent_exclusion (cfg : RedisVectorQueryConfig)
    (vector : List Rat) (fe : Bool) :
    (∀ k ∈ coreQueryKwargKeys,
      k ∈ (to_query_kwargs cfg vector fe).map Prod.fst) ∧
    ("hybrid_policy" ∈ (to_query_kwargs cfg vector fe).map Prod.fst ↔
      cfg.hybrid_policy ≠ none) ∧
    ("batch_size" ∈ (to_query_kwargs cfg vector fe).map Prod.fst ↔
      cfg.batch_size ≠ none) ∧
    ("ef_runtime" ∈ (to_query_kwargs cfg vector fe).map Prod.fst ↔
      cfg.ef_runtime ≠ none) ∧
    ("epsilon" ∈ (to_query_kwargs cfg vector fe).map Prod.fst ↔
      cfg.epsilon ≠ none) ∧
    ("search_window_size" ∈ (to_query_kwargs cfg vector fe).map Prod.fst ↔
      cfg.search_window_size ≠ none) ∧
    ("use_search_history" ∈ (to_query_kwargs cfg vector fe).map Prod.fst ↔
      cfg.use_search_history ≠ none) ∧
    ("search_buffer_capacity" ∈ (to_query_kwargs cfg vector fe).map Prod.fst ↔
      cfg.search_buffer_capacity ≠ none) := by
  refine ⟨?_, ?_, ?_, ?_, ?_, ?_, ?_, ?_⟩
  · intro k hk
    simp only [coreQueryKwargKeys, List.mem_cons, List.not_mem_nil,
      or_false] at hk
    rcases hk with rfl | rfl | rfl | rfl | rfl | rfl | rfl | rfl | rfl | rfl <;>
      simp [to_query_kwargs]
  all_goals simp [to_query_kwargs, mem_optEntry_keys, exists_pair_mem_optEntry]

/-- C10 witness: the implication-guarded core-keys clause at a concrete
config. -/
theorem C10_witness :
    "num_results" ∈
      (to_query_kwargs {} [(1 : Rat)] false).map Prod.fst ∧
    ("epsilon" ∈
        (to_query_kwargs { epsilon := some (1 : Rat) } [(1 : Rat)] false).map
          Prod.fst ↔
      ({ epsilon := some (1 : Rat) } : RedisVectorQueryConfig).epsilon ≠
        none) :=
  ⟨(C10_version_dependent_exclusion {} [(1 : Rat)] false).1 "num_results"
      (by decide),
    (C10_version_dependent_exclusion { epsilon := some (1 : Rat) }
      [(1 : Rat)] false).2.2.2.2.1⟩

/-- Characterisation of `_supports_native_hybrid`: both versions must parse
and be at least the respective minimum. -/
theorem supports_native_iff (m : RedisvlModule) (idx : IndexModel) :
    _supports_native_hybrid m idx = true ↔
      ((∃ v, parseVersion (_get_redisvl_version m) = some v ∧
          versionLt v minNativeHybridRelease = false) ∧
       (∃ w, parseVersion (_get_redis_server_version idx) = some w ∧
          versionLt w minRedisServerRelease = false)) := by
  unfold _supports_native_hybrid
  cases hv : parseVersion (_get_redisvl_version m)
  · simp [hv]
  case some v =>
    simp only [hv]
    cases hlt : versionLt v minNativeHybridRelease
    · simp only [hlt, if_false, Bool.false_eq_true]
      cases hw : parseVersion (_get_redis_server_version idx)
      · simp [hw]
      case some w =>
        simp only [hw]
        cases hlt2 : versionLt w minRedisServerRelease <;> simp [hlt, hlt2]
    · simp [hlt]

/-- If the detected server version string is `"0.0.0"`, native hybrid support
is not detected. -/
theorem supports_eq_false_of_server_zero (m : RedisvlModule)
    (idx : IndexModel) (h : _get_redis_server_version idx = "0.0.0") :
    _supports_native_hybrid m idx = false := by
  unfold _supports_native_hybrid
  rw [h]
  cases hv : parseVersion (_get_redisvl_version m)
  · rfl
  case some v =>
    simp only [hv]
    cases hlt : versionLt v minNativeHybridRelease
    · have h1 : parseVersion "0.0.0" = some [0, 0, 0] := by decide
      have h2 : versionLt [0, 0, 0] minRedisServerRelease = true := by decide
      simp [hlt, h1, h2]
    · simp [hlt]

/-- If the detected RedisVL version string is `"0.0.0"`, native hybrid
support is not detected. -/
theorem supports_eq_false_of_redisvl_zero (m : RedisvlModule)
    (idx : IndexModel) (h : _get_redisvl_version m = "0.0.0") :
    _supports_native_hybrid m idx = false := by
  unfold _supports_native_hybrid
  rw [h]
  have h1 : parseVersion "0.0.0" = some [0, 0, 0] := by decide
  have h2 : versionLt [0, 0, 0] minNativeHybridRelease = true := by decide
  simp [h1, h2]

/-- C3: version detection is total and conjunctive.
`_supports_native_hybrid` returns `true` iff the RedisVL version parses and
is at least 0.13.0 and the server version parses and is at least 8.4.0;
a missing client, a client exception, or an unavailable `__version__`
attribute is treated as version `"0.0.0"` and yields `false`, and any parse
failure yields `false`.  (The embedding is a total function: no branch
raises.) -/
theorem C3_version_detection (m : RedisvlModule) (idx : IndexModel) :
    (_supports_native_hybrid m idx = true ↔
      ((∃ v, parseVersion (_get_redisvl_version m) = some v ∧
          versionLt v minNativeHybridRelease = false) ∧
       (∃ w, parseVersion (_get_redis_server_version idx) = some w ∧
          versionLt w minRedisServerRelease = false))) ∧
    (idx.clientAccess = .ok none →
      _get_redis_server_version idx = "0.0.0" ∧
      _supports_native_hybrid m idx = false) ∧
    (∀ e, idx.clientAccess = .error e →
      _get_redis_server_version idx = "0.0.0" ∧
      _supports_native_hybrid m idx = false) ∧
    ((m.importable = false ∨ m.version_attr = none) →
      _get_redisvl_version m = "0.0.0" ∧
      _supports_native_hybrid m idx = false) ∧
    (parseVersion (_get_redisvl_version m) = none →
      _supports_native_hybrid m idx = false) ∧
    (parseVersion (_get_redis_server_version idx) = none →
      _supports_native_hybrid m idx = false) := by
  refine ⟨supports_native_iff m idx, ?_, ?_, ?_, ?_, ?_⟩
  · intro h
    have hs : _get_redis_server_version idx = "0.0.0" := by
      unfold _get_redis_server_version
      rw [h]
    exact ⟨hs, supports_eq_false_of_server_zero m idx hs⟩
  · intro e h
    have hs : _get_redis_server_version idx = "0.0.0" := by
      unfold _get_redis_server_version
      rw [h]
    exact ⟨hs, supports_eq_false_of_server_zero m idx hs⟩
  · intro h
    have hv : _get_redisvl_version m = "0.0.0" := by
      unfold _get_redisvl_version
      rcases h with h | h
      · simp [h]
      · cases him : m.importable <;> simp [him, h]
    exact ⟨hv, supports_eq_false_of_redisvl_zero m idx hv⟩
  · intro h
    unfold _supports_native_hybrid
    simp [h]
  · intro h
    unfold _supports_native_hybrid
    cases hv : parseVersion (_get_redisvl_version m)
    · rfl
    case some v =>
      simp only [hv]
      cases hlt : versionLt v minNativeHybridRelease <;> simp [hlt, h]

/-- C3 witness: a missing async client yields server version `"0.0.0"` and
no native support even with RedisVL 0.13.0 installed. -/
theorem C3_witness :
    _get_redis_server_version ⟨.ok none⟩ = "0.0.0" ∧
    _supports_native_hybrid ⟨true, some "0.13.0"⟩ ⟨.ok none⟩ = false :=
  (C3_version_detection ⟨true, some "0.13.0"⟩ ⟨.ok none⟩).2.1 rfl

/-- C2: version-compatibility precondition.  Constructing the tool with a
`RedisHybridQueryConfig` raises `ValueError` iff native hybrid support is
not detected; constructing it with a `RedisAggregatedHybridQueryConfig`
never raises for version reasons and emits the `DeprecationWarning` exactly
when native support is detected. -/
theorem C2_version_compat_precondition (m : RedisvlModule)
    (idx : IndexModel) :
    (∀ n, (∃ e, hybridToolInit m idx (some (.native n)) = .error e) ↔
      _supports_native_hybrid m idx = false) ∧
    (∀ n, ∃ st, hybridToolInit m idx (some (.aggregated n)) = .ok st ∧
      st.warned = _supports_native_hybrid m idx) := by
  constructor
  · intro n
    unfold hybridToolInit
    cases hsup : _supports_native_hybrid m idx <;>
      simp [hsup, HybridCfg.isNative]
  · intro n
    unfold hybridToolInit
    cases hsup : _supports_native_hybrid m idx <;>
      simp [hsup, HybridCfg.isNative]

/-- C2 witness: with no client (support undetectable), a native config raises
and an aggregated config constructs without warning. -/
theorem C2_witness :
    (∃ e, hybridToolInit ⟨true, some "0.13.0"⟩ ⟨.ok none⟩
      (some (.native 5)) = .error e) ∧
    (∃ st, hybridToolInit ⟨true, some "0.13.0"⟩ ⟨.ok none⟩
      (some (.aggregated 5)) = .ok st ∧
      st.warned = _supports_native_hybrid ⟨true, some "0.13.0"⟩ ⟨.ok none⟩) :=
  ⟨((C2_version_compat_precondition ⟨true, some "0.13.0"⟩ ⟨.ok none⟩).1 5).mpr
      (by decide),
    (C2_version_compat_precondition ⟨true, some "0.13.0"⟩ ⟨.ok none⟩).2 5⟩

/-- C4: mutually exclusive query-construction paths.  Every `_build_query`
call constructs exactly one of the two query classes — the native
`HybridQuery` iff the tool's effective config is a `RedisHybridQueryConfig`
— with the choice (`_use_native`) fixed at construction; when no config was
given, the native config is selected iff `_supports_native_hybrid` returned
`true`. -/
theorem C4_query_path_exclusivity (m : RedisvlModule) (idx : IndexModel)
    (configArg : Option HybridCfg) (st : HybridToolState)
    (h : hybridToolInit m idx configArg = .ok st) :
    (∀ qt emb nr,
      ((hybridBuildQuery st qt emb nr).isHybridQuery = st.use_native) ∧
      (hybridBuildQuery st qt emb nr =
        .hybridQuery qt emb (nr.getD st.config.numResults) ∨
       hybridBuildQuery st qt emb nr =
        .aggregateHybridQuery qt emb (nr.getD st.config.numResults)) ∧
      ¬(hybridBuildQuery st qt emb nr =
          .hybridQuery qt emb (nr.getD st.config.numResults) ∧
        hybridBuildQuery st qt emb nr =
          .aggregateHybridQuery qt emb (nr.getD st.config.numResults))) ∧
    st.use_native = st.config.isNative ∧
    (∀ c, configArg = some c → st.config = c) ∧
    (configArg = none →
      (st.config.isNative = true ↔ _supports_native_hybrid m idx = true)) := by
  have hst : st.use_native = st.config.isNative ∧
      (∀ c, configArg = some c → st.config = c) ∧
      (configArg = none →
        (st.config.isNative = true ↔
          _supports_native_hybrid m idx = true)) := by
    unfold hybridToolInit at h
    cases hcfg : configArg
    · cases hsup : _supports_native_hybrid m idx <;>
        simp [hcfg, hsup, HybridCfg.isNative] at h <;>
        rcases h with ⟨rfl, rfl, rfl, rfl⟩ <;>
        simp [hcfg, hsup, HybridCfg.isNative]
    case some c =>
      cases c <;> cases hsup : _supports_native_hybrid m idx <;>
        simp [hcfg, hsup, HybridCfg.isNative] at h <;>
        rcases h with ⟨rfl, rfl, rfl, rfl⟩ <;>
        simp [hcfg, hsup, HybridCfg.isNative]
  refine ⟨?_, hst⟩
  intro qt emb nr
  refine ⟨?_, ?_, ?_⟩
  · unfold hybridBuildQuery
    cases hu : st.use_native <;>
      simp [hu, BuiltHybridQuery.isHybridQuery]
  · unfold hybridBuildQuery
    cases hu : st.use_native <;> simp [hu]
  · rintro ⟨h1, h2⟩
    rw [h1] at h2
    cases h2

/-- C4 witness: with a detected native environment and no config argument,
the constructed tool builds a native `HybridQuery`. -/
theorem C4_witness :
    (hybridBuildQuery ⟨true, true, HybridCfg.native 10, false⟩ "q"
      [(1 : Rat)] none).isHybridQuery =
      (⟨true, true, HybridCfg.native 10, false⟩ : HybridToolState).use_native ∧
    ((⟨true, true, HybridCfg.native 10, false⟩ :
        HybridToolState).config.isNative = true ↔
      _supports_native_hybrid ⟨true, some "0.13.0"⟩
        ⟨.ok (some ⟨.ok (some "8.4.0")⟩)⟩ = true) :=
  ⟨((C4_query_path_exclusivity ⟨true, some "0.13.0"⟩
      ⟨.ok (some ⟨.ok (some "8.4.0")⟩)⟩ none
      ⟨true, true, HybridCfg.native 10, false⟩ rfl).1 "q"
      [(1 : Rat)] none).1,
    (C4_query_path_exclusivity ⟨true, some "0.13.0"⟩
      ⟨.ok (some ⟨.ok (some "8.4.0")⟩)⟩ none
      ⟨true, true, HybridCfg.native 10, false⟩ rfl).2.2.2 rfl⟩

end AdkRedis
